import Mathlib

/-!
Verification of the earthquake dashboard's data pipeline
(`src/earthquake-app.py`): feed normalization (`fetch_earthquake_data`),
regional filtering (`filter_philippines_earthquakes`), alert detection
(`check_recent_earthquakes`) and the damage-classification stub
(`classify_building_damage_hosted`).

Modelling conventions:
- Python floats are modelled as rationals (`ℚ`); no claim here is
  sensitive to binary floating-point rounding.
- A raw GeoJSON feature is a record with `place`, a nullable `mag`
  (`Option ℚ`), `time` in epoch milliseconds (`Int`) and the
  `geometry.coordinates` array (`List ℚ`, ordered
  `[longitude, latitude, depth_km]`).
- Python exceptions are modelled with `Except`: indexing a too-short
  coordinates list raises `indexError`, comparing a null magnitude with
  `>= 4.0` raises `typeError`, a failing HTTP fetch or JSON parse
  raises `fetchError`, and looking up a column that a DataFrame does
  not have raises `keyError`.  A function with no `try/except`
  propagates the error to its caller; `check_recent_earthquakes`'s bare
  `except:` converts any error into `None`.
- `pd.DataFrame(rows)` at line 192 takes its columns from the row
  dicts, so the frame built from an empty row list has no columns at
  all; the frame-level regional filter models the resulting
  `KeyError: latitude` of `df['latitude']`, while the row-level filter
  models the boolean-mask selection on a populated frame.
- The `pytz` conversion `tz_localize('UTC').tz_convert('Asia/Manila')`
  is modelled as attaching the zone's fixed UTC+8 offset (Asia/Manila
  observes no DST in the modern era); the conversion never changes the
  denoted instant, only the attached offset.
-/

namespace EarthquakeApp

/-- Exceptions that the Python pipeline can raise. -/
inductive PyError where
  | indexError : PyError
  | typeError : PyError
  | fetchError : PyError
  | keyError : PyError
deriving DecidableEq, Repr

deriving instance DecidableEq for Except

/-- A timezone-aware timestamp: the absolute instant in epoch
milliseconds together with the display offset of the attached zone. -/
structure LocalTime where
  instantMs : Int
  offsetMs : Int
deriving DecidableEq, Repr

/-- The wall-clock reading of a timezone-aware timestamp. -/
def LocalTime.wallClockMs (t : LocalTime) : Int :=
  t.instantMs + t.offsetMs

/-- Asia/Manila is UTC+8: eight hours in milliseconds. -/
def manilaOffsetMs : Int := 8 * 3600 * 1000

/-- Model of `utc_time.tz_localize('UTC').tz_convert(pytz.timezone('Asia/Manila'))`:
the instant is unchanged, the Manila offset is attached. -/
def manilaOf (utcMs : Int) : LocalTime :=
  { instantMs := utcMs, offsetMs := manilaOffsetMs }

/-- A raw feature record of the GeoJSON feed, as consumed by the code:
`properties.place`, nullable `properties.mag`, `properties.time`
(epoch ms) and `geometry.coordinates = [longitude, latitude, depth]`. -/
structure RawFeature where
  place : String
  mag : Option ℚ
  time : Int
  coordinates : List ℚ
deriving DecidableEq, Repr

/-- A normalized event row as built by `fetch_earthquake_data`
(lines 184-191 of `src/earthquake-app.py`). A null `mag` is kept as a
missing value (pandas `NaN`), hence `Option ℚ`. -/
structure SeismicEvent where
  place : String
  magnitude : Option ℚ
  depth_km : ℚ
  time_ph : LocalTime
  latitude : ℚ
  longitude : ℚ
deriving DecidableEq, Repr

/-- The alert dictionary returned by `check_recent_earthquakes`
(lines 215-223). -/
structure Alert where
  magnitude : ℚ
  depth : ℚ
  location : String
  latitude : ℚ
  longitude : ℚ
  time_ph : LocalTime
  time_utc : Int
deriving DecidableEq, Repr

/-- Normalization of one feature inside `fetch_earthquake_data`'s loop
(lines 179-191): `depth_km` is `coordinates[2]`, `latitude` is
`coordinates[1]`, `longitude` is `coordinates[0]`; indexing a
coordinates array with fewer than 3 entries raises `IndexError`. -/
def normalizeFeature (f : RawFeature) : Except PyError SeismicEvent :=
  match f.coordinates[2]?, f.coordinates[1]?, f.coordinates[0]? with
  | some d, some lat, some lon =>
      Except.ok { place := f.place, magnitude := f.mag, depth_km := d,
                  time_ph := manilaOf f.time, latitude := lat, longitude := lon }
  | _, _, _ => Except.error PyError.indexError

/-- `fetch_earthquake_data` over an already-parsed feature list
(lines 174-192): the loop has no per-record handler, so the first
raising record aborts the whole batch and nothing is returned. -/
def fetch_earthquake_data : List RawFeature → Except PyError (List SeismicEvent)
  | [] => Except.ok []
  | f :: rest => do
      let e ← normalizeFeature f
      let es ← fetch_earthquake_data rest
      Except.ok (e :: es)

/-- `fetch_earthquake_data` including the HTTP GET and JSON parse
(lines 175-177): a failing fetch is an error the function does not
catch, so it propagates unchanged. -/
def fetch_earthquake_data_from (r : Except PyError (List RawFeature)) :
    Except PyError (List SeismicEvent) :=
  match r with
  | Except.error e => Except.error e
  | Except.ok feats => fetch_earthquake_data feats

/-- The length of the event list of a successful fetch, `none` when the
fetch raised. -/
def countOk : Except PyError (List SeismicEvent) → Option Nat
  | Except.ok es => some es.length
  | Except.error _ => none

/-- A bounding box `(lat_min, lat_max, lon_min, lon_max)` as in §4.3 of
the specification. -/
structure BBox where
  lat_min : ℚ
  lat_max : ℚ
  lon_min : ℚ
  lon_max : ℚ
deriving DecidableEq, Repr

/-- Membership of an event in a bounding box, inclusive on all sides. -/
def inBBox (b : BBox) (e : SeismicEvent) : Bool :=
  decide (b.lat_min ≤ e.latitude ∧ e.latitude ≤ b.lat_max ∧
          b.lon_min ≤ e.longitude ∧ e.longitude ≤ b.lon_max)

/-- Modelled from the spec: §4.3's `filter_region(events, box)`; the
source hardcodes the Philippine box, the spec states the parametric
contract. -/
def filter_region (events : List SeismicEvent) (b : BBox) : List SeismicEvent :=
  events.filter (inBBox b)

/-- The bounding box hardcoded in `filter_philippines_earthquakes`. -/
def phBox : BBox := { lat_min := 4, lat_max := 20, lon_min := 119, lon_max := 131 }

/-- The row-wise content of `filter_philippines_earthquakes`
(lines 194-198) on a populated frame: the boolean mask retains the rows
with `4 <= latitude <= 20` and `119 <= longitude <= 131`, in order. -/
def filter_philippines_earthquakes (events : List SeismicEvent) : List SeismicEvent :=
  events.filter (inBBox phBox)

/-- `filter_philippines_earthquakes` at the DataFrame level, as applied
to the frame `pd.DataFrame(rows)` built at line 192: a frame built from
an empty row list has no columns, so `df['latitude']` at line 196
raises `KeyError`; on a populated frame, whose columns exist, the
filter selects the in-box rows. -/
def filter_philippines_earthquakes_frame (rows : List SeismicEvent) :
    Except PyError (List SeismicEvent) :=
  if rows.isEmpty then Except.error PyError.keyError
  else Except.ok (filter_philippines_earthquakes rows)

/-- The caller of the bulk fetch at lines 273-275: fetch, filter to the
Philippine box, count for the metric widget. No handler anywhere on
this path, so a raised error aborts the rendering pass. -/
def realtime_metric (r : Except PyError (List RawFeature)) : Except PyError Nat :=
  match fetch_earthquake_data_from r with
  | Except.error e => Except.error e
  | Except.ok es => Except.ok (filter_philippines_earthquakes es).length

/-- Outcome of one iteration of `check_recent_earthquakes`'s loop
(lines 206-223) on a single feature: return an alert, fall through to
the next feature, or raise. -/
inductive StepRes where
  | found : Alert → StepRes
  | skip : StepRes
  | raise : PyError → StepRes
deriving DecidableEq, Repr

/-- One iteration of the loop of `check_recent_earthquakes`:
`lat, lon = coordinates[1], coordinates[0]` (IndexError when fewer than
2 entries); if `4 <= lat <= 20 and 119 <= lon <= 131` then
`properties['mag'] >= 4.0` (TypeError when `mag` is null); on success
the alert also reads `coordinates[2]` for the depth (IndexError when
missing). -/
def scanStep (f : RawFeature) : StepRes :=
  match f.coordinates[1]?, f.coordinates[0]? with
  | some lat, some lon =>
      if 4 ≤ lat ∧ lat ≤ 20 ∧ 119 ≤ lon ∧ lon ≤ 131 then
        match f.mag with
        | none => StepRes.raise PyError.typeError
        | some m =>
            if 4 ≤ m then
              match f.coordinates[2]? with
              | some d =>
                  StepRes.found { magnitude := m, depth := d, location := f.place,
                                  latitude := lat, longitude := lon,
                                  time_ph := manilaOf f.time, time_utc := f.time }
              | none => StepRes.raise PyError.indexError
            else StepRes.skip
      else StepRes.skip
  | _, _ => StepRes.raise PyError.indexError

/-- The scanning loop of `check_recent_earthquakes`: first feature whose
iteration returns wins; a raising iteration aborts the scan. -/
def scanAlert : List RawFeature → Except PyError (Option Alert)
  | [] => Except.ok none
  | f :: rest =>
      match scanStep f with
      | StepRes.found a => Except.ok (some a)
      | StepRes.skip => scanAlert rest
      | StepRes.raise e => Except.error e

/-- The bare `except: return None` of `check_recent_earthquakes`:
any raised error becomes `None`. -/
def runScan : Except PyError (Option Alert) → Option Alert
  | Except.ok a => a
  | Except.error _ => none

/-- `check_recent_earthquakes` (lines 200-226) as a function of the
fetch outcome: the `try` wraps both the fetch and the scan, and the
bare `except:` turns every failure into `None`. -/
def check_recent_earthquakes (r : Except PyError (List RawFeature)) : Option Alert :=
  match r with
  | Except.error _ => none
  | Except.ok feats => runScan (scanAlert feats)

/-- A raw feature whose latitude/longitude entries exist and lie inside
the alert region box. -/
def rawInRegion (f : RawFeature) : Bool :=
  match f.coordinates[1]?, f.coordinates[0]? with
  | some lat, some lon =>
      decide (4 ≤ lat ∧ lat ≤ 20 ∧ 119 ≤ lon ∧ lon ≤ 131)
  | _, _ => false

/-- A raw feature that qualifies for an alert in the claims' sense:
in region with a non-null magnitude of at least 4.0. -/
def rawQualifies (f : RawFeature) : Bool :=
  match f.coordinates[1]?, f.coordinates[0]?, f.mag with
  | some lat, some lon, some m =>
      decide (4 ≤ lat ∧ lat ≤ 20 ∧ 119 ≤ lon ∧ lon ≤ 131 ∧ 4 ≤ m)
  | _, _, _ => false

/-- A raw feature whose loop iteration falls through without raising:
coordinates long enough to unpack, and either out of region or with a
non-null magnitude below the threshold. -/
def skipsQuietly (f : RawFeature) : Bool :=
  match f.coordinates[1]?, f.coordinates[0]? with
  | some lat, some lon =>
      if 4 ≤ lat ∧ lat ≤ 20 ∧ 119 ≤ lon ∧ lon ≤ 131 then
        match f.mag with
        | some m => decide (m < 4)
        | none => false
      else true
  | _, _ => false

/-- A raw feature that the loop would return an alert for: in region,
magnitude present and at least 4.0, depth entry present. -/
def qualifiesFull (f : RawFeature) : Bool :=
  match f.coordinates[1]?, f.coordinates[0]?, f.mag, f.coordinates[2]? with
  | some lat, some lon, some m, some _ =>
      decide (4 ≤ lat ∧ lat ≤ 20 ∧ 119 ≤ lon ∧ lon ≤ 131 ∧ 4 ≤ m)
  | _, _, _, _ => false

/-- The alert dictionary `check_recent_earthquakes` builds from a
feature, when all required entries are present. -/
def alertOf (f : RawFeature) : Option Alert :=
  match f.coordinates[1]?, f.coordinates[0]?, f.mag, f.coordinates[2]? with
  | some lat, some lon, some m, some d =>
      some { magnitude := m, depth := d, location := f.place,
             latitude := lat, longitude := lon,
             time_ph := manilaOf f.time, time_utc := f.time }
  | _, _, _, _ => none

/-- An input image for the classifier, opaque to it. -/
def DamageImage : Type := List (List ℚ)

/-- The fixed class names of `classify_building_damage_hosted`. -/
def class_names : List String := ["SAFE", "DAMAGED", "UNSAFE"]

/-- The hard-coded prediction vector of `classify_building_damage_hosted`:
the source's `[0.8, 0.15, 0.05]` (written with `mkRat` so that concrete
evaluation stays kernel-reducible). -/
def predictions : List ℚ := [mkRat 8 10, mkRat 15 100, mkRat 5 100]

/-- Index of the first maximum of a nonempty list, as `np.argmax`
computes it; 0 on the empty list. -/
def argmaxAux : List ℚ → Nat → Nat → ℚ → Nat
  | [], _, best, _ => best
  | x :: xs, i, best, bv =>
      if bv < x then argmaxAux xs (i + 1) i x else argmaxAux xs (i + 1) best bv

/-- Model of `np.argmax` on a list of rationals. -/
def argmax : List ℚ → Nat
  | [] => 0
  | x :: xs => argmaxAux xs 1 0 x

/-- `classify_building_damage_hosted` (lines 228-244): the `try` body
never raises, so the function always returns
`(class_names[argmax(predictions)], predictions[argmax(predictions)], predictions)`
regardless of the input image. -/
def classify_building_damage_hosted (image : DamageImage) : String × ℚ × List ℚ :=
  let predicted_idx := argmax predictions
  (class_names.getD predicted_idx "", predictions.getD predicted_idx 0, predictions)

/-- The three-feature feed of the null-magnitude scenario: one in-region
feature with magnitude 5, one null-magnitude feature out of region, one
out-of-region feature with magnitude 3. -/
def feedC4 : List RawFeature :=
  [{ place := "Luzon", mag := some 5, time := 0,
     coordinates := [mkRat 243 2, mkRat 29 2, 10] },
   { place := "NullMag", mag := none, time := 0, coordinates := [-70, 40, 5] },
   { place := "Atlantic", mag := some 3, time := 0, coordinates := [-70, 40, 5] }]

/-- A feature with fewer than 3 coordinate entries is normalized to an
`IndexError` (the `coordinates[2]` access). -/
lemma normalizeFeature_short (f : RawFeature) (hf : f.coordinates.length < 3) :
    normalizeFeature f = Except.error PyError.indexError := by
  have h2 : f.coordinates[2]? = none := List.getElem?_eq_none (by omega)
  unfold normalizeFeature
  rw [h2]

lemma normalizeFeature_long (f : RawFeature) (hf : 3 ≤ f.coordinates.length) :
    ∃ e, normalizeFeature f = Except.ok e := by
  have hb2 : 2 < f.coordinates.length := by omega
  have hb1 : 1 < f.coordinates.length := by omega
  have hb0 : 0 < f.coordinates.length := by omega
  obtain ⟨d, h2⟩ : ∃ d, f.coordinates[2]? = some d :=
    ⟨_, List.getElem?_eq_getElem hb2⟩
  obtain ⟨lat, h1⟩ : ∃ lat, f.coordinates[1]? = some lat :=
    ⟨_, List.getElem?_eq_getElem hb1⟩
  obtain ⟨lon, h0⟩ : ∃ lon, f.coordinates[0]? = some lon :=
    ⟨_, List.getElem?_eq_getElem hb0⟩
  refine ⟨{ place := f.place, magnitude := f.mag, depth_km := d,
            time_ph := manilaOf f.time, latitude := lat, longitude := lon }, ?_⟩
  unfold normalizeFeature
  rw [h2, h1, h0]

lemma scanStep_skip_of_quiet (f : RawFeature) (h : skipsQuietly f = true) :
    scanStep f = StepRes.skip := by
  unfold skipsQuietly at h
  unfold scanStep
  cases h1 : f.coordinates[1]? with
  | none => rw [h1] at h; simp at h
  | some lat =>
    cases h0 : f.coordinates[0]? with
    | none => rw [h1, h0] at h; simp at h
    | some lon =>
      rw [h1, h0] at h
      simp only at h ⊢
      by_cases hc : 4 ≤ lat ∧ lat ≤ 20 ∧ 119 ≤ lon ∧ lon ≤ 131
      · simp only [if_pos hc] at h ⊢
        cases hm : f.mag with
        | none => rw [hm] at h; simp at h
        | some m =>
          rw [hm] at h
          simp only at h
          have hm4 : ¬ (4 ≤ m) := by
            have := of_decide_eq_true h
            linarith
          simp only [hm, if_neg hm4]
      · simp only [if_neg hc] at h ⊢

lemma scanStep_found_of_qual (f : RawFeature) (h : qualifiesFull f = true) :
    ∃ a, alertOf f = some a ∧ scanStep f = StepRes.found a := by
  unfold qualifiesFull at h
  cases h1 : f.coordinates[1]? with
  | none => rw [h1] at h; simp at h
  | some lat =>
    cases h0 : f.coordinates[0]? with
    | none => rw [h1, h0] at h; simp at h
    | some lon =>
      cases hm : f.mag with
      | none => rw [h1, h0, hm] at h; simp at h
      | some m =>
        cases hd : f.coordinates[2]? with
        | none => rw [h1, h0, hm, hd] at h; simp at h
        | some d =>
          rw [h1, h0, hm, hd] at h
          simp only at h
          have hprops := of_decide_eq_true h
          refine ⟨{ magnitude := m, depth := d, location := f.place,
                    latitude := lat, longitude := lon,
                    time_ph := manilaOf f.time, time_utc := f.time }, ?_, ?_⟩
          · unfold alertOf
            rw [h1, h0, hm, hd]
          · unfold scanStep
            rw [h1, h0]
            have hc : 4 ≤ lat ∧ lat ≤ 20 ∧ 119 ≤ lon ∧ lon ≤ 131 :=
              ⟨hprops.1, hprops.2.1, hprops.2.2.1, hprops.2.2.2.1⟩
            simp only [if_pos hc, hm, if_pos hprops.2.2.2.2, hd]

lemma scanStep_raise_of_null (f : RawFeature) (hin : rawInRegion f = true)
    (hm : f.mag = none) : scanStep f = StepRes.raise PyError.typeError := by
  unfold rawInRegion at hin
  unfold scanStep
  cases h1 : f.coordinates[1]? with
  | none => rw [h1] at hin; simp at hin
  | some lat =>
    cases h0 : f.coordinates[0]? with
    | none => rw [h1, h0] at hin; simp at hin
    | some lon =>
      rw [h1, h0] at hin
      simp only at hin ⊢
      simp only [if_pos (of_decide_eq_true hin), hm]

lemma rawQualifies_of_found (f : RawFeature) (a : Alert)
    (h : scanStep f = StepRes.found a) : rawQualifies f = true := by
  unfold scanStep at h
  unfold rawQualifies
  cases h1 : f.coordinates[1]? with
  | none => rw [h1] at h; simp at h
  | some lat =>
    cases h0 : f.coordinates[0]? with
    | none => rw [h1, h0] at h; simp at h
    | some lon =>
      rw [h1, h0] at h
      simp only at h ⊢
      by_cases hc : 4 ≤ lat ∧ lat ≤ 20 ∧ 119 ≤ lon ∧ lon ≤ 131
      · simp only [if_pos hc] at h
        cases hm : f.mag with
        | none => rw [hm] at h; simp at h
        | some m =>
          rw [hm] at h
          simp only at h ⊢
          by_cases hm4 : 4 ≤ m
          · exact decide_eq_true ⟨hc.1, hc.2.1, hc.2.2.1, hc.2.2.2, hm4⟩
          · simp only [if_neg hm4] at h
            simp at h
      · simp only [if_neg hc] at h
        simp at h

lemma scanAlert_cons_skip (f : RawFeature) (l : List RawFeature)
    (h : scanStep f = StepRes.skip) : scanAlert (f :: l) = scanAlert l := by
  simp [scanAlert, h]

lemma scanAlert_cons_found (f : RawFeature) (l : List RawFeature) (a : Alert)
    (h : scanStep f = StepRes.found a) : scanAlert (f :: l) = Except.ok (some a) := by
  simp [scanAlert, h]

lemma scanAlert_cons_raise (f : RawFeature) (l : List RawFeature) (e : PyError)
    (h : scanStep f = StepRes.raise e) : scanAlert (f :: l) = Except.error e := by
  simp [scanAlert, h]

lemma runScan_scanAlert_none (l : List RawFeature)
    (h : ∀ g ∈ l, rawQualifies g = false) :
    runScan (scanAlert l) = none := by
  induction l with
  | nil => rfl
  | cons g l ih =>
    cases hs : scanStep g with
    | found a =>
      have hq := rawQualifies_of_found g a hs
      rw [h g (by simp)] at hq; cases hq
    | skip =>
      rw [scanAlert_cons_skip g l hs]
      exact ih (fun x hx => h x (by simp [hx]))
    | raise e => rw [scanAlert_cons_raise g l e hs]; rfl

/-- C2: `filter_philippines_earthquakes` retains an event if and only if
`4 ≤ latitude ≤ 20` and `119 ≤ longitude ≤ 131`, with all bounds
inclusive; events exactly on the boundary (latitude 4, or longitude 131)
are retained. -/
theorem filter_ph_retains_iff :
    (∀ (es : List SeismicEvent) (e : SeismicEvent),
      e ∈ filter_philippines_earthquakes es ↔
        e ∈ es ∧ 4 ≤ e.latitude ∧ e.latitude ≤ 20 ∧
          119 ≤ e.longitude ∧ e.longitude ≤ 131) ∧
    filter_philippines_earthquakes
      [{ place := "latMin", magnitude := some 5, depth_km := 10,
         time_ph := manilaOf 0, latitude := 4, longitude := 125 },
       { place := "lonMax", magnitude := some 5, depth_km := 10,
         time_ph := manilaOf 0, latitude := 10, longitude := 131 }] =
      [{ place := "latMin", magnitude := some 5, depth_km := 10,
         time_ph := manilaOf 0, latitude := 4, longitude := 125 },
       { place := "lonMax", magnitude := some 5, depth_km := 10,
         time_ph := manilaOf 0, latitude := 10, longitude := 131 }] := by
  constructor
  · intro es e
    simp [filter_philippines_earthquakes, List.mem_filter, inBBox, phBox]
  · decide

/-- C7 (code bug): on the program's empty event collection — the
column-less `pd.DataFrame([])` an empty feed produces — the filter
raises `KeyError` instead of returning an empty collection, while the
spec's parametric `filter_region` does return `[]` on the empty list
for every box. -/
theorem filter_ph_empty_frame_raises :
    filter_philippines_earthquakes_frame [] = Except.error PyError.keyError ∧
    filter_philippines_earthquakes_frame [] ≠ Except.ok [] ∧
    (∀ b : BBox, filter_region [] b = []) :=
  ⟨rfl, by decide, fun _ => rfl⟩

/-- C10: the building-damage classifier ignores its input: any two
images yield the same result, namely the constant triple
`("SAFE", 0.8, [0.8, 0.15, 0.05])`. -/
theorem classify_constant :
    ∀ i1 i2 : DamageImage,
      classify_building_damage_hosted i1 = classify_building_damage_hosted i2 ∧
      classify_building_damage_hosted i1 =
        ("SAFE", mkRat 8 10, [mkRat 8 10, mkRat 15 100, mkRat 5 100]) ∧
      (mkRat 8 10 : ℚ) = 0.8 ∧ (mkRat 15 100 : ℚ) = 0.15 ∧ (mkRat 5 100 : ℚ) = 0.05 := by
  intro i1 i2
  refine ⟨rfl, ?_, ?_, ?_, ?_⟩
  · rfl
  · norm_num [Rat.mkRat_eq_div]
  · norm_num [Rat.mkRat_eq_div]
  · norm_num [Rat.mkRat_eq_div]

/-- C8: every successfully normalized feature carries a local time equal
to the UTC time shifted by the fixed Manila offset (UTC+8, no DST): the
local time denotes the same instant as the UTC one, recomputing it from
the instant is idempotent, and a record with `time = 0` yields the Unix
epoch instant with a local wall clock of epoch + 8 hours. -/
theorem normalize_local_time (f : RawFeature) (e : SeismicEvent)
    (h : normalizeFeature f = Except.ok e) :
    e.time_ph = manilaOf f.time ∧
    e.time_ph.instantMs = f.time ∧
    e.time_ph.wallClockMs = f.time + manilaOffsetMs ∧
    manilaOf e.time_ph.instantMs = e.time_ph ∧
    (f.time = 0 → e.time_ph.instantMs = 0 ∧ e.time_ph.wallClockMs = manilaOffsetMs) := by
  unfold normalizeFeature at h
  cases h2 : f.coordinates[2]? with
  | none => rw [h2] at h; cases h
  | some d =>
    cases h1 : f.coordinates[1]? with
    | none => rw [h2, h1] at h; cases h
    | some lat =>
      cases h0 : f.coordinates[0]? with
      | none => rw [h2, h1, h0] at h; cases h
      | some lon =>
        rw [h2, h1, h0] at h
        cases h
        refine ⟨rfl, rfl, rfl, rfl, ?_⟩
        intro ht
        rw [ht]
        exact ⟨rfl, by simp [manilaOf, LocalTime.wallClockMs]⟩

/-- C8 witness: a record with `time = 0` and full coordinates maps to
the epoch instant, with local wall clock equal to the fixed offset. -/
theorem normalize_local_time_witness :
    (manilaOf 0).instantMs = 0 ∧ (manilaOf 0).wallClockMs = manilaOffsetMs :=
  (normalize_local_time
    { place := "epoch", mag := some 5, time := 0, coordinates := [121, 14, 10] }
    { place := "epoch", magnitude := some 5, depth_km := 10, time_ph := manilaOf 0,
      latitude := 14, longitude := 121 }
    (by decide)).2.2.2.2 rfl

/-- C4 counterexample: the normalizer does not drop the null-magnitude
record; on the three-feature feed with one `mag = null` it returns 3
events, not 2. -/
theorem fetch_keeps_null_mag_counterexample :
    countOk (fetch_earthquake_data feedC4) = some 3 ∧
    countOk (fetch_earthquake_data feedC4) ≠ some 2 := by
  decide

/-- C4 (amended): the normalizer keeps the null-magnitude record as an
event with missing magnitude, so the three-feature feed yields 3 events;
the regional filter keys only on the coordinates, and with exactly one
event in the box (at latitude 14.5, longitude 121.5) it retains exactly
1 event. -/
theorem fetch_keeps_null_mag :
    countOk (fetch_earthquake_data feedC4) = some 3 ∧
    countOk (Except.map filter_philippines_earthquakes (fetch_earthquake_data feedC4)) =
      some 1 := by
  decide

/-- C5 counterexample: a feed of a good record, a record with only 2
coordinate entries and another good record makes the whole normalization
raise `IndexError`; the rest of the batch is not processed and no
partial result (the two good events) is returned. -/
theorem fetch_skip_policy_counterexample :
    fetch_earthquake_data
      [{ place := "good1", mag := some 5, time := 0, coordinates := [121, 14, 10] },
       { place := "bad", mag := some 5, time := 0, coordinates := [120, 10] },
       { place := "good2", mag := some 3, time := 0, coordinates := [125, 8, 33] }] =
      Except.error PyError.indexError ∧
    fetch_earthquake_data
      [{ place := "good1", mag := some 5, time := 0, coordinates := [121, 14, 10] },
       { place := "bad", mag := some 5, time := 0, coordinates := [120, 10] },
       { place := "good2", mag := some 3, time := 0, coordinates := [125, 8, 33] }] ≠
      Except.ok
        [{ place := "good1", magnitude := some 5, depth_km := 10, time_ph := manilaOf 0,
           latitude := 14, longitude := 121 },
         { place := "good2", magnitude := some 3, depth_km := 33, time_ph := manilaOf 0,
           latitude := 8, longitude := 125 }] := by
  decide

/-- C5 (amended): a record with fewer than 3 coordinate entries makes
normalization raise an index error for that record, and the error aborts
the entire batch instead of skipping the record: whatever well-formed
records precede or follow it, the whole fetch returns the error and no
skipped-record count exists. -/
theorem fetch_short_coords_aborts_batch (pre : List RawFeature) (f : RawFeature)
    (rest : List RawFeature)
    (hpre : ∀ g ∈ pre, 3 ≤ g.coordinates.length)
    (hf : f.coordinates.length < 3) :
    fetch_earthquake_data (pre ++ f :: rest) = Except.error PyError.indexError := by
  induction pre with
  | nil =>
    rw [List.nil_append]
    simp only [fetch_earthquake_data]
    rw [normalizeFeature_short f hf]
    rfl
  | cons g ps ih =>
    obtain ⟨e, he⟩ := normalizeFeature_long g (hpre g (by simp))
    rw [List.cons_append]
    simp only [fetch_earthquake_data]
    rw [he, ih (fun x hx => hpre x (by simp [hx]))]
    rfl

/-- C5 witness: a batch of a good record, a 2-coordinate record and a
further good record normalizes to the index error. -/
theorem fetch_short_coords_aborts_batch_witness :
    fetch_earthquake_data
      [{ place := "w1", mag := some 2, time := 0, coordinates := [10, 20, 30] },
       { place := "w2", mag := none, time := 0, coordinates := [40, 50] },
       { place := "w3", mag := some 6, time := 0, coordinates := [1, 2, 3] }] =
      Except.error PyError.indexError :=
  fetch_short_coords_aborts_batch
    [{ place := "w1", mag := some 2, time := 0, coordinates := [10, 20, 30] }]
    { place := "w2", mag := none, time := 0, coordinates := [40, 50] }
    [{ place := "w3", mag := some 6, time := 0, coordinates := [1, 2, 3] }]
    (by decide) (by decide)

/-- C6 counterexample: a failing fetch on the bulk-data path is not
degraded to an empty result: the dashboard metric computation propagates
the raw error instead of rendering an empty count. -/
theorem fetch_failure_not_fatal_counterexample :
    realtime_metric (Except.error PyError.fetchError) = Except.error PyError.fetchError ∧
    realtime_metric (Except.error PyError.fetchError) ≠ Except.ok 0 := by
  decide

/-- C6 (amended): only the alert path degrades a feed failure to "no
data": `check_recent_earthquakes` returns `None` on any fetch error,
while the bulk path (`fetch_earthquake_data` and its caller) propagates
the raw error uncaught, aborting the rendering pass; no `FeedUnavailable`
wrapper exists. -/
theorem fetch_failure_propagates :
    (∀ e : PyError, realtime_metric (Except.error e) = Except.error e) ∧
    (∀ e : PyError, check_recent_earthquakes (Except.error e) = none) :=
  ⟨fun _ => rfl, fun _ => rfl⟩

/-- C3: the alert detector returns `None` whenever no event of the feed
qualifies (in region with magnitude at least 4.0), and in particular
whenever the fetch itself failed with any error. -/
theorem check_recent_none_of_no_qualifier (r : Except PyError (List RawFeature))
    (h : ∀ feats, r = Except.ok feats → ∀ g ∈ feats, rawQualifies g = false) :
    check_recent_earthquakes r = none := by
  cases r with
  | error e => rfl
  | ok feats => exact runScan_scanAlert_none feats (h feats rfl)

/-- C3 witness: a failed fetch and a feed with one out-of-region and one
weak in-region event both produce no alert. -/
theorem check_recent_none_of_no_qualifier_witness :
    check_recent_earthquakes (Except.error PyError.fetchError) = none ∧
    check_recent_earthquakes (Except.ok
      [{ place := "far", mag := some 6, time := 0, coordinates := [-70, 40, 5] },
       { place := "weak", mag := some 2, time := 0, coordinates := [121, 10, 3] }]) = none :=
  ⟨check_recent_none_of_no_qualifier _ (fun feats hfe => by cases hfe),
   check_recent_none_of_no_qualifier _ (fun feats hfe => by cases hfe; decide)⟩

/-- C1 counterexample: the detector does not always return the first
qualifying event: when an in-region null-magnitude feature precedes a
qualifying one, the comparison raises and the detector returns `None`
instead of the first qualifying event. -/
theorem check_recent_first_match_counterexample :
    rawQualifies { place := "strong", mag := some 5, time := 0,
                   coordinates := [121, 10, 30] } = true ∧
    check_recent_earthquakes (Except.ok
      [{ place := "nullMag", mag := none, time := 0, coordinates := [122, 12, 10] },
       { place := "strong", mag := some 5, time := 0, coordinates := [121, 10, 30] }]) =
      none ∧
    (none : Option Alert) ≠
      alertOf { place := "strong", mag := some 5, time := 0,
                coordinates := [121, 10, 30] } := by
  decide

/-- C1 (amended): provided every event before the first qualifying one
falls through quietly (out of the region box, or in region with a
non-null magnitude below 4.0), the detector returns the alert built from
the first event that is in region with magnitude at least 4.0 (and its
depth entry present) — first match in feed order, not highest magnitude. -/
theorem check_recent_first_match (pre : List RawFeature) (f : RawFeature)
    (rest : List RawFeature)
    (hpre : ∀ g ∈ pre, skipsQuietly g = true)
    (hf : qualifiesFull f = true) :
    check_recent_earthquakes (Except.ok (pre ++ f :: rest)) = alertOf f ∧
    (alertOf f).isSome = true := by
  obtain ⟨a, ha, hstep⟩ := scanStep_found_of_qual f hf
  constructor
  · have key : ∀ ps : List RawFeature, (∀ g ∈ ps, skipsQuietly g = true) →
        runScan (scanAlert (ps ++ f :: rest)) = alertOf f := by
      intro ps
      induction ps with
      | nil =>
        intro _
        rw [List.nil_append, scanAlert_cons_found f rest a hstep, ha]
        rfl
      | cons g ps ih =>
        intro hp
        rw [List.cons_append,
            scanAlert_cons_skip g _ (scanStep_skip_of_quiet g (hp g (by simp)))]
        exact ih (fun x hx => hp x (by simp [hx]))
    exact key pre hpre
  · rw [ha]; rfl

/-- C1 witness: on the feed [magnitude 3.0 in region, magnitude 5.0 in
region, magnitude 6.0 out of region] the detector returns the second
event, not the highest-magnitude one. -/
theorem check_recent_first_match_witness :
    check_recent_earthquakes (Except.ok
      [{ place := "inRegionWeak", mag := some 3, time := 0, coordinates := [121, 10, 5] },
       { place := "inRegionStrong", mag := some 5, time := 1000, coordinates := [122, 11, 8] },
       { place := "outRegionStrongest", mag := some 6, time := 0, coordinates := [150, 35, 9] }]) =
      alertOf { place := "inRegionStrong", mag := some 5, time := 1000,
                coordinates := [122, 11, 8] } ∧
    (alertOf { place := "inRegionStrong", mag := some 5, time := 1000,
               coordinates := [122, 11, 8] }).isSome = true :=
  check_recent_first_match
    [{ place := "inRegionWeak", mag := some 3, time := 0, coordinates := [121, 10, 5] }]
    { place := "inRegionStrong", mag := some 5, time := 1000, coordinates := [122, 11, 8] }
    [{ place := "outRegionStrongest", mag := some 6, time := 0, coordinates := [150, 35, 9] }]
    (by decide) (by decide)

/-- C9: if an in-region feature with null magnitude precedes every
qualifying event of the feed, the detector returns `None`: the null
comparison raises, the catch-all handler converts the error, and later
qualifying events are never reached. -/
theorem check_recent_none_on_preceding_null_mag (pre : List RawFeature)
    (n : RawFeature) (rest : List RawFeature)
    (hpre : ∀ g ∈ pre, rawQualifies g = false)
    (hin : rawInRegion n = true) (hmag : n.mag = none) :
    check_recent_earthquakes (Except.ok (pre ++ n :: rest)) = none := by
  have key : ∀ ps : List RawFeature, (∀ g ∈ ps, rawQualifies g = false) →
      runScan (scanAlert (ps ++ n :: rest)) = none := by
    intro ps
    induction ps with
    | nil =>
      intro _
      rw [List.nil_append, scanAlert_cons_raise n rest PyError.typeError
        (scanStep_raise_of_null n hin hmag)]
      rfl
    | cons g ps ih =>
      intro hp
      cases hs : scanStep g with
      | found a =>
        have hq := rawQualifies_of_found g a hs
        rw [hp g (by simp)] at hq; cases hq
      | skip =>
        rw [List.cons_append, scanAlert_cons_skip g _ hs]
        exact ih (fun x hx => hp x (by simp [hx]))
      | raise e => rw [List.cons_append, scanAlert_cons_raise g _ e hs]; rfl
  exact key pre hpre

/-- C9 witness: a weak in-region event, then an in-region null-magnitude
event, then a qualifying magnitude-7 event: the detector returns `None`. -/
theorem check_recent_none_on_preceding_null_mag_witness :
    check_recent_earthquakes (Except.ok
      [{ place := "weak", mag := some 2, time := 0, coordinates := [120, 9, 4] },
       { place := "nullMag", mag := none, time := 0, coordinates := [121, 14, 20] },
       { place := "qualifying", mag := some 7, time := 0, coordinates := [121, 10, 30] }]) =
      none :=
  check_recent_none_on_preceding_null_mag
    [{ place := "weak", mag := some 2, time := 0, coordinates := [120, 9, 4] }]
    { place := "nullMag", mag := none, time := 0, coordinates := [121, 14, 20] }
    [{ place := "qualifying", mag := some 7, time := 0, coordinates := [121, 10, 30] }]
    (by decide) (by decide) rfl

end EarthquakeApp
